import Mathlib

/-!
Verification of the `astro` solar-ephemeris package.

The Go sources compute solar quantities (mean solar noon, solar mean anomaly,
equation of the centre, ecliptic longitude, solar declination, solar transit,
hour angle, altitude correction) and convert between Julian dates
(`julianTime`, a float64 day count) and Gregorian civil timestamps
(`gregorianTime`, wrapping Go's `time.Time`).

Modelling conventions:
* float64 arithmetic in the trigonometric solar formulas is idealised as exact
  real arithmetic (`ℝ`); the calendar conversions, which only use rational
  operations, are idealised as exact rational arithmetic (`ℚ`).
* Go's `math.Mod` (truncated-division remainder, sign of the dividend) is
  `goMod`; Go's float-to-integer conversions (truncation toward zero) are
  `rtrunc` on `ℝ` and `ratTrunc` on `ℚ`.
* Go's `math.Acos` returns NaN outside `[-1, 1]`; this partiality is made
  explicit with an `Option` result (`goAcos`), `none` standing for NaN.
* A float64 that may be NaN is modelled by `goFloat` (`nan` or a rational
  value); `time.Unix`'s reconstruction of a UTC wall-clock time from seconds
  since 1970 (an external library call) is modelled by `civilFromSeconds`
  over the proleptic Gregorian calendar, which is the calendar `time.Time`
  implements.
-/

namespace Astro

noncomputable section

/-- Degree-based sine: Go `sin(a) = math.Sin(a / 180 * math.Pi)`. -/
def sin (a : ℝ) : ℝ := Real.sin (a / 180 * Real.pi)

/-- Degree-based cosine: Go `cos(a) = math.Cos(a / 180 * math.Pi)`. -/
def cos (a : ℝ) : ℝ := Real.cos (a / 180 * Real.pi)

/-- Arcsine in degrees: Go `asin(a) = math.Asin(a) * 180 / math.Pi`. -/
def asin (a : ℝ) : ℝ := Real.arcsin a * 180 / Real.pi

/-- Arccosine in degrees of an in-range argument:
Go `acos(a) = math.Acos(a) * 180 / math.Pi`. -/
def acos (a : ℝ) : ℝ := Real.arccos a * 180 / Real.pi

/-- Go `math.Acos` with its NaN behaviour made explicit: outside `[-1, 1]`
the Go function silently returns NaN, modelled here as `none`. -/
def goAcos (x : ℝ) : Option ℝ :=
  if -1 ≤ x ∧ x ≤ 1 then some (acos x) else none

/-- Truncation toward zero of a real number, modelling Go's float-to-int
conversion used inside `math.Mod`. -/
def rtrunc (x : ℝ) : ℤ := if x < 0 then -⌊-x⌋ else ⌊x⌋

/-- Go `math.Mod(x, y) = x - y * trunc(x / y)`: the remainder carries the
sign of the dividend `x`. -/
def goMod (x y : ℝ) : ℝ := x - y * (rtrunc (x / y) : ℝ)

/-- The constant `J2000Epoch julianTime = 2451545.0` (January 1, 2000, 12:00 TT). -/
def J2000Epoch : ℝ := 2451545.0

/-- The package-level variable `earthAngleOfTilt = 23.439281`. -/
def earthAngleOfTilt : ℝ := 23.439281

/-- The method `(j julianTime) J2000Epoch() = j - J2000Epoch + 0.0008`. -/
def julianTime.J2000Epoch (j : ℝ) : ℝ := j - Astro.J2000Epoch + 0.0008

/-- Go struct `Location`; latitude, longitude in degrees, altitude in meters.
`Altitude` is a float64 in Go, modelled as `ℝ`. -/
structure Location where
  Latitude : ℝ
  Longitude : ℝ
  Altitude : ℝ

/-- Go `(a Location) meanSolarNoon(j julianDay) = julianTime(j).J2000Epoch() +
julianTime(a.Longitude/360)`.  The `julianDay` argument is a float64 day
number; it is taken here as an arbitrary real. -/
def Location.meanSolarNoon (a : Location) (j : ℝ) : ℝ :=
  julianTime.J2000Epoch j + a.Longitude / 360

/-- Go `(a Location) solarMeanAnomaly(j) = math.Mod(357.5291 +
0.98560028 * meanSolarNoon(j), 360)`. -/
def Location.solarMeanAnomaly (a : Location) (j : ℝ) : ℝ :=
  goMod (357.5291 + 0.98560028 * a.meanSolarNoon j) 360

/-- Go `(a Location) equationOfTheCentre(j)`: with `sma := a.solarMeanAnomaly(j)`,
`1.9148*math.Sin(a.Longitude) + 0.0200*math.Sin(2*sma) + 0.0003*math.Sin(3*sma)`.
All three sines are the radian primitive `math.Sin`, applied directly to the
degree-valued arguments. -/
def Location.equationOfTheCentre (a : Location) (j : ℝ) : ℝ :=
  1.9148 * Real.sin a.Longitude + 0.0200 * Real.sin (2 * a.solarMeanAnomaly j) +
    0.0003 * Real.sin (3 * a.solarMeanAnomaly j)

/-- The equation of the centre as the specification words it: the leading term
keeps the raw longitude under the radian sine, but the `2M` and `3M` terms use
the degree-based helper `sin`. -/
def Location.specEquationOfTheCentre (a : Location) (j : ℝ) : ℝ :=
  1.9148 * Real.sin a.Longitude + 0.0200 * sin (2 * a.solarMeanAnomaly j) +
    0.0003 * sin (3 * a.solarMeanAnomaly j)

/-- Go `(a Location) eclipticLongitude(j) = math.Mod(solarMeanAnomaly(j) +
equationOfTheCentre(j) + 180 + 102.9732, 360)`. -/
def Location.eclipticLongitude (a : Location) (j : ℝ) : ℝ :=
  goMod (a.solarMeanAnomaly j + a.equationOfTheCentre j + 180 + 102.9732) 360

/-- Go `(a Location) solarTransit(j) = J2000Epoch + meanSolarNoon(j) +
julianTime(0.0053*math.Sin(solarMeanAnomaly(j) - 0.0069*sin(2*eclipticLongitude(j))))`.
The outer sine is the radian primitive `math.Sin`; the inner one is the
degree-based helper `sin`. -/
def Location.solarTransit (a : Location) (j : ℝ) : ℝ :=
  J2000Epoch + a.meanSolarNoon j +
    0.0053 * Real.sin (a.solarMeanAnomaly j - 0.0069 * sin (2 * a.eclipticLongitude j))

/-- The solar transit as the specification words it: the degree-based helper
`sin` at both sine occurrences. -/
def Location.specSolarTransit (a : Location) (j : ℝ) : ℝ :=
  J2000Epoch + a.meanSolarNoon j +
    0.0053 * sin (a.solarMeanAnomaly j - 0.0069 * sin (2 * a.eclipticLongitude j))

/-- Go `(a Location) solarDeclination(j) = asin(sin(eclipticLongitude(j)) *
sin(earthAngleOfTilt))`. -/
def Location.solarDeclination (a : Location) (j : ℝ) : ℝ :=
  asin (sin (a.eclipticLongitude j) * sin earthAngleOfTilt)

/-- Go `(a Altitude) correction()`: `-2.076 * math.Sqrt(a/60)` for `a > 0`,
otherwise the fixed value `-0.1625`. -/
def Altitude.correction (a : ℝ) : ℝ :=
  if 0 < a then -2.076 * Real.sqrt (a / 60) else -0.1625

/-- The cosine-ratio argument passed to `acos` inside Go
`(a Location) hourAngle(j)`:
`(sin(-0.83+a.Altitude.correction()) - sin(a.Latitude)*sin(a.solarDeclination(j)))
 / cos(a.Latitude) / cos(a.solarDeclination(j))`. -/
def Location.hourAngleArg (a : Location) (j : ℝ) : ℝ :=
  (sin (-0.83 + Altitude.correction a.Altitude) -
      sin a.Latitude * sin (a.solarDeclination j)) /
    cos a.Latitude / cos (a.solarDeclination j)

/-- Go `(a Location) hourAngle(j) = acos(hourAngleArg)`, with `math.Acos`'s
NaN production on out-of-range ratios kept visible through `goAcos`. -/
def Location.hourAngle (a : Location) (j : ℝ) : Option ℝ :=
  goAcos (a.hourAngleArg j)

end
/-- The wall-clock fields of Go `gregorianTime` (a `time.Time`): year, month,
day, hour, minute, second, taken in UTC. -/
structure CivilTime where
  year : ℤ
  month : ℤ
  day : ℤ
  hour : ℤ
  minute : ℤ
  second : ℤ
deriving DecidableEq

/-- The zero value `gregorianTime{}`: Go's zero `time.Time` is January 1 of
year 1, 00:00:00 UTC. -/
def civilEmpty : CivilTime := ⟨1, 1, 1, 0, 0, 0⟩

/-- Truncation toward zero of a rational, modelling Go's `int64(...)`
conversion of a float64 value. -/
def ratTrunc (q : ℚ) : ℤ := if q < 0 then -⌊-q⌋ else ⌊q⌋

/-- Proleptic-Gregorian `(year, month, day)` of the day `z` days after
1970-01-01, modelling the calendar arithmetic Go's `time` package performs
inside `time.Unix(...).UTC()`; stated with the standard era/day-of-era
decomposition of the 400-year Gregorian cycle. -/
def civilFromDays (z : ℤ) : ℤ × ℤ × ℤ :=
  let z' := z + 719468
  let era := z' / 146097
  let doe := z' - era * 146097
  let yoe := (doe - doe / 1460 + doe / 36524 - doe / 146096) / 365
  let y := yoe + era * 400
  let doy := doe - (365 * yoe + yoe / 4 - yoe / 100)
  let mp := (5 * doy + 2) / 153
  let d := doy - (153 * mp + 2) / 5 + 1
  let m := mp + (if mp < 10 then 3 else -9)
  (y + (if m ≤ 2 then 1 else 0), m, d)

/-- The UTC wall-clock time `s` seconds after the Unix epoch, modelling
`time.Unix(s, 0)` as read through the `Year()...Second()` accessors. -/
def civilFromSeconds (s : ℤ) : CivilTime :=
  let days := s / 86400
  let r := s % 86400
  let t := civilFromDays days
  ⟨t.1, t.2.1, t.2.2, r / 3600, r % 3600 / 60, r % 60⟩

/-- Go `(g gregorianTime) fractionalDay() = (hour*3600 + minute*60 + second)/86400`. -/
def fractionalDay (g : CivilTime) : ℚ :=
  ((g.hour * 3600 + g.minute * 60 + g.second : ℤ) : ℚ) / 86400

/-- Go `(g gregorianTime) c19Correction()`: `1` when
`100*year + month - 190002.5 < 0` (dates up to February 1900), else `0`.
The constant `190002.5` is written `380005 / 2`. -/
def c19Correction (g : CivilTime) : ℚ :=
  if 100 * (g.year : ℚ) + (g.month : ℚ) - 380005 / 2 < 0 then 1 else 0

/-- Go `(g gregorianTime) julian()`: `367*year - int(7*(year + int((month+9)/12))/4)
+ (275*int(month))/9 + 1721013.5 + day + fractionalDay + c19Correction`.
Go's `int(...)` truncations of these float divisions of integers are
`Int.tdiv`; `1721013.5` is written `3442027 / 2`. -/
def julian (g : CivilTime) : ℚ :=
  367 * (g.year : ℚ) - (((7 * (g.year + (g.month + 9).tdiv 12)).tdiv 4 : ℤ) : ℚ) +
    (((275 * g.month).tdiv 9 : ℤ) : ℚ) + 3442027 / 2 + (g.day : ℚ) +
    fractionalDay g + c19Correction g

/-- The package variable `unixEpoch = time.Unix(0, 0).UTC()`:
1 January 1970, 00:00:00 UTC. -/
def unixEpochTime : CivilTime := ⟨1970, 1, 1, 0, 0, 0⟩

/-- A float64 that may hold the NaN sentinel. -/
inductive goFloat
  | nan
  | val (q : ℚ)
deriving DecidableEq

/-- Result of the `gregorian` conversion: an ordinary civil time, or the
unspecified garbage produced when NaN flows through `int64(t*86400)` and
`time.Unix`. -/
inductive gregorianResult
  | ok (t : CivilTime)
  | nanGarbage
deriving DecidableEq

/-- Go `(j julianTime) gregorian()`: when `j != 0` (which holds for NaN too,
since `NaN != 0` is true), returns `time.Unix(int64((j - unixEpoch.julian())
* 86400), 0)`; otherwise the zero `gregorianTime{}`.  A NaN input propagates
NaN into the implementation-defined `int64` conversion, modelled as the
distinguished `nanGarbage` value. -/
def gregorian (j : goFloat) : gregorianResult :=
  match j with
  | .val q =>
      if q ≠ 0 then
        .ok (civilFromSeconds (ratTrunc ((q - julian unixEpochTime) * 86400)))
      else .ok civilEmpty
  | .nan => .nanGarbage

/-- Day count since 1970-01-01 of a proleptic-Gregorian date: the inverse of
`civilFromDays`, used only in the proofs. -/
def daysFromCivil (y m d : ℤ) : ℤ :=
  let y' := y - (if m ≤ 2 then 1 else 0)
  let era := y' / 400
  let yoe := y' - era * 400
  let doy := (153 * (m + (if 2 < m then -3 else 9)) + 2) / 5 + d - 1
  let doe := yoe * 365 + yoe / 4 - yoe / 100 + doy
  era * 146097 + doe - 719468

/-- The integer part of `julian` at midnight: `367y - trunc(7(y + trunc((m+9)/12))/4)
+ trunc(275m/9) + d` plus the century correction, with `julian g =
julianDateNum + 1721013.5 + fractionalDay g`. -/
def julianDateNum (y m d : ℤ) : ℤ :=
  367 * y - (7 * (y + (m + 9).tdiv 12)).tdiv 4 + (275 * m).tdiv 9 + d +
    (if 100 * y + m ≤ 190002 then 1 else 0)

/-- The truncated remainder by a positive modulus is strictly smaller than the
modulus in absolute value. -/
theorem abs_goMod_lt (x y : ℝ) (hy : 0 < y) : |goMod x y| < y := by
  rw [goMod, rtrunc]
  split_ifs with h
  · have h1 : ((⌊-(x / y)⌋ : ℝ)) ≤ -x / y := by
      rw [neg_div]
      exact Int.floor_le (-(x / y))
    have h2 : -x / y < (⌊-(x / y)⌋ : ℝ) + 1 := by
      rw [neg_div]
      exact Int.lt_floor_add_one (-(x / y))
    have h3 := (le_div_iff hy).mp h1
    have h4 := (div_lt_iff hy).mp h2
    rw [abs_lt]
    push_cast
    constructor <;> nlinarith
  · have h3 := (le_div_iff hy).mp (Int.floor_le (x / y))
    have h4 := (div_lt_iff hy).mp (Int.lt_floor_add_one (x / y))
    rw [abs_lt]
    constructor <;> nlinarith

/-- C7: the method `julianTime.J2000Epoch` returns `t - 2451545.0 + 0.0008`
and is a pure additive shift: `toJ2000(t) - toJ2000(t - 100) = 100`. -/
theorem J2000Epoch_additive_shift (t : ℝ) :
    julianTime.J2000Epoch t = t - 2451545.0 + 0.0008 ∧
      julianTime.J2000Epoch t - julianTime.J2000Epoch (t - 100) = 100 := by
  constructor
  · rfl
  · rw [julianTime.J2000Epoch, julianTime.J2000Epoch]
    ring

/-- C8: `meanSolarNoon(loc, j) = toJ2000(julianTime(j)) + Longitude/360`, and
for `Location{0,0,0}` on day `2453954` the value is `2409.000800` within
`10 ^ (-6)`. -/
theorem meanSolarNoon_formula :
    (∀ (a : Location) (j : ℝ),
        a.meanSolarNoon j = julianTime.J2000Epoch j + a.Longitude / 360) ∧
      |Location.meanSolarNoon ⟨0, 0, 0⟩ 2453954 - 2409.000800| ≤ 1 / 1000000 := by
  constructor
  · intro a j
    rfl
  · rw [Location.meanSolarNoon, julianTime.J2000Epoch, J2000Epoch]
    norm_num

/-- C4 (counterexample): at `Location{0,0,0}` and julian day `0` the solar mean
anomaly computed by the code is negative, so it does not lie in `[0, 360)`. -/
theorem solarMeanAnomaly_negative_at_day_zero :
    Location.solarMeanAnomaly ⟨0, 0, 0⟩ 0 < 0 := by
  have hD : 357.5291 + 0.98560028 * Location.meanSolarNoon ⟨0, 0, 0⟩ 0 =
      (-75496434642003743 : ℝ) / 31250000000 := by
    rw [Location.meanSolarNoon, julianTime.J2000Epoch, J2000Epoch]
    norm_num
  rw [Location.solarMeanAnomaly, hD, goMod, rtrunc]
  rw [if_pos (by norm_num : ((-75496434642003743 : ℝ) / 31250000000) / 360 < 0)]
  have hfl : ⌊-(((-75496434642003743 : ℝ) / 31250000000) / 360)⌋ = 6710 := by
    rw [Int.floor_eq_iff]
    norm_num
  rw [hfl]
  norm_num

/-- C4 (amended): `solarMeanAnomaly` is the truncated-division Go modulus
`math.Mod(357.5291 + 0.98560028 * meanSolarNoon, 360)` of the dividend, and
its absolute value is always below `360`; it is not always in `[0, 360)`. -/
theorem solarMeanAnomaly_goMod_bound (a : Location) (j : ℝ) :
    a.solarMeanAnomaly j = goMod (357.5291 + 0.98560028 * a.meanSolarNoon j) 360 ∧
      |a.solarMeanAnomaly j| < 360 := by
  refine ⟨rfl, ?_⟩
  rw [Location.solarMeanAnomaly]
  exact abs_goMod_lt _ 360 (by norm_num)

/-- C9: the altitude correction is `-2.076 * sqrt(a/60)` for positive altitude
and the fixed `-0.1625` otherwise; `correction(0) = -0.1625` and
`correction(1000)` is `-8.475235` within `10 ^ (-6)`. -/
theorem correction_cases :
    (∀ a : ℝ, (0 < a → Altitude.correction a = -2.076 * Real.sqrt (a / 60)) ∧
        (a ≤ 0 → Altitude.correction a = -0.1625)) ∧
      Altitude.correction 0 = -0.1625 ∧
      |Altitude.correction 1000 - (-8.475235)| ≤ 1 / 1000000 := by
  refine ⟨fun a => ⟨fun h => ?_, fun h => ?_⟩, ?_, ?_⟩
  · rw [Altitude.correction, if_pos h]
  · rw [Altitude.correction, if_neg (by linarith)]
  · rw [Altitude.correction, if_neg (by norm_num)]
  · rw [Altitude.correction, if_pos (by norm_num : (0 : ℝ) < 1000)]
    have hnn : (0 : ℝ) ≤ 1000 / 60 := by norm_num
    have hs := Real.sq_sqrt hnn
    have hpos := Real.sqrt_nonneg (1000 / 60 : ℝ)
    rw [abs_le]
    constructor <;> nlinarith [hs, hpos]

/-- C9 (witness): the positive branch of the altitude correction evaluated at
altitude `1000`. -/
theorem correction_cases_witness :
    Altitude.correction 1000 = -2.076 * Real.sqrt (1000 / 60) :=
  (correction_cases.1 1000).1 (by norm_num)

/-- C10: the solar declination never exceeds the axial tilt in magnitude. -/
theorem solarDeclination_bounded (a : Location) (j : ℝ) :
    |a.solarDeclination j| ≤ 23.439281 := by
  rw [Location.solarDeclination, asin]
  set p := sin (a.eclipticLongitude j) * sin earthAngleOfTilt with hp
  have hpi := Real.pi_pos
  set t : ℝ := 23.439281 / 180 * Real.pi with ht
  have ht0 : 0 < t := by rw [ht]; positivity
  have htlt : t ≤ Real.pi / 2 := by rw [ht]; nlinarith
  have hsint : sin earthAngleOfTilt = Real.sin t := by
    rw [sin, earthAngleOfTilt, ht]
  have hsint_nonneg : 0 ≤ Real.sin t :=
    Real.sin_nonneg_of_nonneg_of_le_pi ht0.le (by nlinarith)
  have habs_p : |p| ≤ Real.sin t := by
    rw [hp, hsint, abs_mul, abs_of_nonneg hsint_nonneg]
    have h1 : |Real.sin (a.eclipticLongitude j / 180 * Real.pi)| ≤ 1 := by
      rw [abs_le]
      exact ⟨Real.neg_one_le_sin _, Real.sin_le_one _⟩
    have h2 : 0 ≤ Real.sin t := hsint_nonneg
    calc |sin (a.eclipticLongitude j)| * Real.sin t ≤ 1 * Real.sin t := by
          apply mul_le_mul_of_nonneg_right _ h2
          rw [sin]
          exact h1
      _ = Real.sin t := one_mul _
  have h1 : Real.arcsin p ≤ t := by
    have hmono := Real.monotone_arcsin (le_trans (le_abs_self p) habs_p)
    rwa [Real.arcsin_sin (by linarith) htlt] at hmono
  have h2 : -t ≤ Real.arcsin p := by
    have hge : Real.sin (-t) ≤ p := by
      rw [Real.sin_neg]
      have := neg_abs_le p
      linarith
    have hmono := Real.monotone_arcsin hge
    rwa [Real.arcsin_sin (by linarith) (by linarith)] at hmono
  have h180pi : (0 : ℝ) < 180 / Real.pi := by positivity
  have hval : t * (180 / Real.pi) = 23.439281 := by
    rw [ht]
    field_simp
  rw [abs_le]
  constructor
  · rw [mul_div_assoc]
    have := mul_le_mul_of_nonneg_right h2 h180pi.le
    rw [← hval]
    nlinarith
  · rw [mul_div_assoc, ← hval]
    exact mul_le_mul_of_nonneg_right h1 h180pi.le

/-- C1 (counterexample): at `Location{0,0,0}` and julian day `2451913` the
value computed by the code differs from the specified formula that applies the
degree-based sine to the `2M` and `3M` terms. -/
theorem equationOfTheCentre_spec_cex :
    Location.specEquationOfTheCentre ⟨0, 0, 0⟩ 2451913 ≠
      Location.equationOfTheCentre ⟨0, 0, 0⟩ 2451913 := by
  have hM : Location.solarMeanAnomaly ⟨0, 0, 0⟩ 2451913 = 0.230791520224 := by
    have hD : 357.5291 + 0.98560028 * Location.meanSolarNoon ⟨0, 0, 0⟩ 2451913 =
        720.230791520224 := by
      rw [Location.meanSolarNoon, julianTime.J2000Epoch, J2000Epoch]
      norm_num
    rw [Location.solarMeanAnomaly, hD, goMod, rtrunc,
      if_neg (by norm_num : ¬((720.230791520224 : ℝ) / 360 < 0))]
    rw [show ⌊(720.230791520224 : ℝ) / 360⌋ = 2 by rw [Int.floor_eq_iff]; norm_num]
    norm_num
  apply ne_of_lt
  rw [Location.specEquationOfTheCentre, Location.equationOfTheCentre, hM]
  have hlon : (⟨0, 0, 0⟩ : Location).Longitude = 0 := rfl
  rw [hlon, Real.sin_zero]
  have s2 : Real.sin (2 * (0.230791520224 : ℝ)) > 0.4369 := by
    have h := Real.sin_gt_sub_cube
      (by norm_num : (0 : ℝ) < 2 * 0.230791520224)
      (by norm_num : (2 : ℝ) * 0.230791520224 ≤ 1)
    have hc : (2 : ℝ) * 0.230791520224 - (2 * 0.230791520224) ^ 3 / 4 ≥ 0.4369 := by
      norm_num
    linarith
  have s3 : Real.sin (3 * (0.230791520224 : ℝ)) > 0.6093 := by
    have h := Real.sin_gt_sub_cube
      (by norm_num : (0 : ℝ) < 3 * 0.230791520224)
      (by norm_num : (3 : ℝ) * 0.230791520224 ≤ 1)
    have hc : (3 : ℝ) * 0.230791520224 - (3 * 0.230791520224) ^ 3 / 4 ≥ 0.6093 := by
      norm_num
    linarith
  have sd2 : sin (2 * (0.230791520224 : ℝ)) < 0.00806 := by
    rw [sin]
    have hx0 : (0 : ℝ) < 2 * 0.230791520224 / 180 * Real.pi := by positivity
    have hlt := Real.sin_lt hx0
    have hxu : 2 * (0.230791520224 : ℝ) / 180 * Real.pi < 0.00806 := by
      nlinarith [Real.pi_lt_d6, Real.pi_pos]
    linarith
  have sd3 : sin (3 * (0.230791520224 : ℝ)) < 0.0121 := by
    rw [sin]
    have hx0 : (0 : ℝ) < 3 * 0.230791520224 / 180 * Real.pi := by positivity
    have hlt := Real.sin_lt hx0
    have hxu : 3 * (0.230791520224 : ℝ) / 180 * Real.pi < 0.0121 := by
      nlinarith [Real.pi_lt_d6, Real.pi_pos]
    linarith
  linarith

/-- C1 (amended): the code applies the radian primitive directly at all three
sine terms: to the raw longitude and to `2M`, `3M` in degrees. -/
theorem equationOfTheCentre_radian_sines (a : Location) (j : ℝ) :
    a.equationOfTheCentre j =
      1.9148 * Real.sin a.Longitude + 0.0200 * Real.sin (2 * a.solarMeanAnomaly j) +
        0.0003 * Real.sin (3 * a.solarMeanAnomaly j) := rfl

/-- C6 (counterexample): at `Location{0,0,0}` and julian day `2451913` the
solar transit computed by the code differs from the specified formula that
takes the outer sine degree-based. -/
theorem solarTransit_spec_cex :
    Location.specSolarTransit ⟨0, 0, 0⟩ 2451913 ≠
      Location.solarTransit ⟨0, 0, 0⟩ 2451913 := by
  have hM : Location.solarMeanAnomaly ⟨0, 0, 0⟩ 2451913 = 0.230791520224 := by
    have hD : 357.5291 + 0.98560028 * Location.meanSolarNoon ⟨0, 0, 0⟩ 2451913 =
        720.230791520224 := by
      rw [Location.meanSolarNoon, julianTime.J2000Epoch, J2000Epoch]
      norm_num
    rw [Location.solarMeanAnomaly, hD, goMod, rtrunc,
      if_neg (by norm_num : ¬((720.230791520224 : ℝ) / 360 < 0))]
    rw [show ⌊(720.230791520224 : ℝ) / 360⌋ = 2 by rw [Int.floor_eq_iff]; norm_num]
    norm_num
  apply ne_of_lt
  rw [Location.specSolarTransit, Location.solarTransit, hM]
  set u := sin (2 * Location.eclipticLongitude ⟨0, 0, 0⟩ 2451913) with hu
  have hu1 : u ≤ 1 := by rw [hu, sin]; exact Real.sin_le_one _
  have hu2 : -1 ≤ u := by rw [hu, sin]; exact Real.neg_one_le_sin _
  set E : ℝ := 0.230791520224 - 0.0069 * u with hE
  have hE1 : 0.2238 ≤ E := by rw [hE]; linarith
  have hE2 : E ≤ 0.2377 := by rw [hE]; linarith
  clear_value E
  have hE0 : 0 < E := by linarith
  have souter : Real.sin E > 0.2204 := by
    have h := Real.sin_gt_sub_cube hE0 (by linarith)
    have hcube : E ^ 3 ≤ (0.2377 : ℝ) ^ 3 := pow_le_pow_left hE0.le hE2 3
    have hc : (0.2377 : ℝ) ^ 3 = 0.013430356633 := by norm_num
    linarith
  have sdouter : sin E < 0.004149 := by
    rw [sin]
    have hx0 : (0 : ℝ) < E / 180 * Real.pi := by positivity
    have hlt := Real.sin_lt hx0
    have hxu : E / 180 * Real.pi < 0.004149 := by
      nlinarith [Real.pi_lt_d6, Real.pi_pos]
    linarith
  linarith

/-- C6 (amended): the code's solar transit uses the radian primitive for the
outer sine and the degree-based helper for the inner sine. -/
theorem solarTransit_mixed_sines (a : Location) (j : ℝ) :
    a.solarTransit j =
      J2000Epoch + a.meanSolarNoon j +
        0.0053 * Real.sin (a.solarMeanAnomaly j -
          0.0069 * sin (2 * a.eclipticLongitude j)) := rfl

set_option maxHeartbeats 1600000 in
/-- C2: at latitude 89 deg (polar day on julian day 2451707) the cosine-ratio
argument of `hourAngle` falls below `-1`, and the code then silently returns
NaN from `math.Acos` (modelled `none`): no clamping and no explicit error. -/
theorem hourAngle_silent_nan_at_pole :
    Location.hourAngleArg ⟨89, 0, 0⟩ 2451707 < -1 ∧
      Location.hourAngle ⟨89, 0, 0⟩ 2451707 = none := by
  have hpi := Real.pi_pos
  have hpi_lt := Real.pi_lt_d6
  have hpi_gt := Real.pi_gt_d6
  have hM : Location.solarMeanAnomaly ⟨89, 0, 0⟩ 2451707 = 157.197133840224 := by
    have hD : 357.5291 + 0.98560028 * Location.meanSolarNoon ⟨89, 0, 0⟩ 2451707 =
        517.197133840224 := by
      rw [Location.meanSolarNoon, julianTime.J2000Epoch, J2000Epoch]
      norm_num
    rw [Location.solarMeanAnomaly, hD, goMod, rtrunc,
      if_neg (by norm_num : ¬((517.197133840224 : ℝ) / 360 < 0))]
    rw [show ⌊(517.197133840224 : ℝ) / 360⌋ = 1 by rw [Int.floor_eq_iff]; norm_num]
    norm_num
  have hC1 : Location.equationOfTheCentre ⟨89, 0, 0⟩ 2451707 ≤ 0.0203 := by
    rw [Location.equationOfTheCentre,
      show (⟨89, 0, 0⟩ : Location).Longitude = 0 from rfl, Real.sin_zero]
    have b1 := Real.sin_le_one (2 * Location.solarMeanAnomaly ⟨89, 0, 0⟩ 2451707)
    have b2 := Real.sin_le_one (3 * Location.solarMeanAnomaly ⟨89, 0, 0⟩ 2451707)
    linarith
  have hC2 : -0.0203 ≤ Location.equationOfTheCentre ⟨89, 0, 0⟩ 2451707 := by
    rw [Location.equationOfTheCentre,
      show (⟨89, 0, 0⟩ : Location).Longitude = 0 from rfl, Real.sin_zero]
    have b1 := Real.neg_one_le_sin (2 * Location.solarMeanAnomaly ⟨89, 0, 0⟩ 2451707)
    have b2 := Real.neg_one_le_sin (3 * Location.solarMeanAnomaly ⟨89, 0, 0⟩ 2451707)
    linarith
  have hecl_val : Location.eclipticLongitude ⟨89, 0, 0⟩ 2451707 =
      157.197133840224 + Location.equationOfTheCentre ⟨89, 0, 0⟩ 2451707 +
        180 + 102.9732 - 360 := by
    rw [Location.eclipticLongitude, hM, goMod, rtrunc]
    rw [if_neg (by push_neg; linarith :
      ¬((157.197133840224 + Location.equationOfTheCentre ⟨89, 0, 0⟩ 2451707 +
          180 + 102.9732) / 360 < 0))]
    rw [show ⌊(157.197133840224 + Location.equationOfTheCentre ⟨89, 0, 0⟩ 2451707 +
        180 + 102.9732) / 360⌋ = 1 by
      rw [Int.floor_eq_iff]
      push_cast
      constructor <;> linarith]
    push_cast
    ring
  set ecl : ℝ := Location.eclipticLongitude ⟨89, 0, 0⟩ 2451707 with hecl
  have hecl_lb : 80.15 ≤ ecl := by rw [hecl_val]; linarith
  have hecl_ub : ecl ≤ 80.1907 := by rw [hecl_val]; linarith
  clear_value ecl
  -- lower bound for the sine of the ecliptic longitude in degrees
  have hsinecl_lb : 0.985 ≤ sin ecl := by
    rw [sin]
    have hyval : Real.pi / 2 - ecl / 180 * Real.pi = (90 - ecl) * Real.pi / 180 := by
      ring
    have hy_ub : (90 - ecl) * Real.pi / 180 ≤ 0.171922 := by
      have h1 : (90 - ecl) ≤ 9.85 := by linarith
      have h2 : (90 - ecl) * Real.pi ≤ 9.85 * 3.141593 := by
        apply mul_le_mul h1 hpi_lt.le hpi.le (by norm_num)
      linarith
    have hy_lb : 0 ≤ (90 - ecl) * Real.pi / 180 := by
      have h1 : (0 : ℝ) ≤ 90 - ecl := by linarith
      positivity
    have hcos := Real.one_sub_sq_div_two_le_cos
      (x := Real.pi / 2 - ecl / 180 * Real.pi)
    rw [Real.cos_pi_div_two_sub] at hcos
    have hsq : (Real.pi / 2 - ecl / 180 * Real.pi) ^ 2 ≤ 0.171922 ^ 2 := by
      rw [hyval]
      exact pow_le_pow_left hy_lb hy_ub 2
    have hc : (0.171922 : ℝ) ^ 2 = 0.029557174084 := by norm_num
    linarith
  have hsinecl_ub : sin ecl ≤ 1 := by rw [sin]; exact Real.sin_le_one _
  -- bounds for the sine of the axial tilt in degrees
  have ht_lb : (0.409092 : ℝ) ≤ 23.439281 / 180 * Real.pi := by nlinarith
  have ht_ub : (23.439281 : ℝ) / 180 * Real.pi ≤ 0.4090927 := by nlinarith
  have hsintilt_lb : 0.3919 ≤ sin earthAngleOfTilt := by
    rw [sin, earthAngleOfTilt]
    have h0 : (0 : ℝ) < 23.439281 / 180 * Real.pi := by positivity
    have hgt := Real.sin_gt_sub_cube h0 (by linarith)
    have hcube : (23.439281 / 180 * Real.pi) ^ 3 ≤ (0.4090927 : ℝ) ^ 3 :=
      pow_le_pow_left h0.le ht_ub 3
    have hc : (0.4090927 : ℝ) ^ 3 = 0.068464460390863427983 := by norm_num
    linarith
  have hsintilt_ub : sin earthAngleOfTilt ≤ 0.4090927 := by
    rw [sin, earthAngleOfTilt]
    have h0 : (0 : ℝ) < 23.439281 / 180 * Real.pi := by positivity
    have := Real.sin_lt h0
    linarith
  -- the arcsine argument
  set p : ℝ := sin ecl * sin earthAngleOfTilt with hp
  have hp_lb : 0.386 ≤ p := by
    rw [hp]
    have := mul_le_mul hsinecl_lb hsintilt_lb (by norm_num) (by linarith)
    linarith
  have hp_ub : p ≤ 0.4090927 := by
    rw [hp]
    have := mul_le_mul hsinecl_ub hsintilt_ub (by linarith) (by norm_num)
    linarith
  clear_value p
  have hp1 : -1 ≤ p := by linarith
  have hp2 : p ≤ 1 := by linarith
  -- the declination in degrees, and its degree-sine and degree-cosine
  have hdecl : Location.solarDeclination ⟨89, 0, 0⟩ 2451707 =
      Real.arcsin p * 180 / Real.pi := by
    rw [Location.solarDeclination, asin, hp, hecl]
  have hrad : Real.arcsin p * 180 / Real.pi / 180 * Real.pi = Real.arcsin p := by
    field_simp
    ring
  have hsindecl : sin (Location.solarDeclination ⟨89, 0, 0⟩ 2451707) = p := by
    rw [hdecl, sin, hrad, Real.sin_arcsin hp1 hp2]
  have hcosdecl : cos (Location.solarDeclination ⟨89, 0, 0⟩ 2451707) =
      Real.sqrt (1 - p ^ 2) := by
    rw [hdecl, cos, hrad, Real.cos_arcsin]
  have hsqrt_pos : 0 < Real.sqrt (1 - p ^ 2) := by
    apply Real.sqrt_pos.mpr
    nlinarith
  have hsqrt_le1 : Real.sqrt (1 - p ^ 2) ≤ 1 := by
    have h1 := Real.sqrt_le_sqrt (show 1 - p ^ 2 ≤ 1 by nlinarith)
    rwa [Real.sqrt_one] at h1
  -- the refraction term sine is negative
  have hs0 : sin (-0.83 + Altitude.correction (⟨89, 0, 0⟩ : Location).Altitude) < 0 := by
    rw [show (⟨89, 0, 0⟩ : Location).Altitude = (0 : ℝ) from rfl,
      Altitude.correction, if_neg (by norm_num), sin]
    apply Real.sin_neg_of_neg_of_neg_pi_lt
    · nlinarith
    · nlinarith
  have hs0_lb : -1 ≤ sin (-0.83 + Altitude.correction (⟨89, 0, 0⟩ : Location).Altitude) := by
    rw [sin]
    exact Real.neg_one_le_sin _
  -- degree-sine and degree-cosine of latitude 89
  have hsin89 : 0.999 ≤ sin (⟨89, 0, 0⟩ : Location).Latitude := by
    rw [show (⟨89, 0, 0⟩ : Location).Latitude = (89 : ℝ) from rfl, sin]
    have hcos := Real.one_sub_sq_div_two_le_cos
      (x := Real.pi / 2 - (89 : ℝ) / 180 * Real.pi)
    rw [Real.cos_pi_div_two_sub] at hcos
    have hy_eq : Real.pi / 2 - (89 : ℝ) / 180 * Real.pi = Real.pi / 180 := by ring
    have hy_ub : Real.pi / 180 ≤ 0.0174533 := by linarith
    have hy_lb : (0 : ℝ) ≤ Real.pi / 180 := by positivity
    have hsq : (Real.pi / 2 - (89 : ℝ) / 180 * Real.pi) ^ 2 ≤ 0.0174533 ^ 2 := by
      rw [hy_eq]
      exact pow_le_pow_left hy_lb hy_ub 2
    have hc : (0.0174533 : ℝ) ^ 2 = 0.00030461768089 := by norm_num
    linarith
  have hcos89_eq : cos (⟨89, 0, 0⟩ : Location).Latitude = Real.sin (Real.pi / 180) := by
    rw [show (⟨89, 0, 0⟩ : Location).Latitude = (89 : ℝ) from rfl, cos,
      ← Real.sin_pi_div_two_sub,
      show Real.pi / 2 - (89 : ℝ) / 180 * Real.pi = Real.pi / 180 from by ring]
  have hcos89_pos : 0 < cos (⟨89, 0, 0⟩ : Location).Latitude := by
    rw [hcos89_eq]
    apply Real.sin_pos_of_pos_of_lt_pi (by positivity)
    nlinarith
  have hcos89_ub : cos (⟨89, 0, 0⟩ : Location).Latitude ≤ 0.017454 := by
    rw [hcos89_eq]
    have := Real.sin_lt (show (0 : ℝ) < Real.pi / 180 by positivity)
    linarith
  -- the ratio is below -1
  have harg : Location.hourAngleArg ⟨89, 0, 0⟩ 2451707 < -1 := by
    rw [Location.hourAngleArg, hsindecl, hcosdecl, div_div]
    have hnum : sin (-0.83 + Altitude.correction (⟨89, 0, 0⟩ : Location).Altitude) -
        sin (⟨89, 0, 0⟩ : Location).Latitude * p ≤ -0.385 := by
      have := mul_le_mul hsin89 hp_lb (by norm_num) (by linarith)
      nlinarith
    have hden_pos : 0 < cos (⟨89, 0, 0⟩ : Location).Latitude * Real.sqrt (1 - p ^ 2) :=
      mul_pos hcos89_pos hsqrt_pos
    have hden_ub : cos (⟨89, 0, 0⟩ : Location).Latitude * Real.sqrt (1 - p ^ 2) ≤
        0.017454 := by
      have := mul_le_mul hcos89_ub hsqrt_le1 hsqrt_pos.le (by norm_num)
      linarith
    rw [div_lt_iff hden_pos]
    nlinarith
  refine ⟨harg, ?_⟩
  rw [Location.hourAngle, goAcos, if_neg]
  rintro ⟨h1, -⟩
  linarith

set_option maxHeartbeats 16000000 in
/-- Range of the day-of-year quantity inside `civilFromDays`. -/
theorem hinnantDoy (doe yoe : ℤ) (hdoe : 0 ≤ doe ∧ doe ≤ 146096)
    (hyoe : yoe = (doe - doe / 1460 + doe / 36524 - doe / 146096) / 365)
    (hr : 0 ≤ yoe ∧ yoe ≤ 399) :
    0 ≤ doe - (365 * yoe + yoe / 4 - yoe / 100) ∧
      doe - (365 * yoe + yoe / 4 - yoe / 100) ≤ 365 := by
  obtain ⟨h1, h2⟩ := hr
  interval_cases yoe <;> omega

set_option maxHeartbeats 8000000 in
/-- The civil date produced by `civilFromDays` maps back to the same day count. -/
theorem daysFromCivil_civilFromDays (z y m d : ℤ) (h : civilFromDays z = (y, m, d)) :
    daysFromCivil y m d = z := by
  simp only [civilFromDays, Prod.mk.injEq] at h
  obtain ⟨hy, hm, hd⟩ := h
  set q : ℤ := z + 719468 with hq
  set era : ℤ := q / 146097 with hera
  set doe : ℤ := q - era * 146097 with hdoe
  set yoe : ℤ := (doe - doe / 1460 + doe / 36524 - doe / 146096) / 365 with hyoe
  set doy : ℤ := doe - (365 * yoe + yoe / 4 - yoe / 100) with hdoy
  set mp : ℤ := (5 * doy + 2) / 153 with hmp
  have hdoesplit : doe ≤ 146094 ∨ doe = 146095 ∨ doe = 146096 := by omega
  have hyoer : 0 ≤ yoe ∧ yoe ≤ 399 := by
    rcases hdoesplit with h | h | h <;> omega
  have hdoyr : 0 ≤ doy ∧ doy ≤ 365 :=
    hinnantDoy doe yoe (by omega) hyoe hyoer
  have hmpr : 0 ≤ mp ∧ mp ≤ 11 := by omega
  simp only [daysFromCivil]
  split_ifs at hy hm hd ⊢
  all_goals first
  | omega
  | (have e1 : (y - 1) / 400 = era := by omega
     have e2 : (y - 1 - (y - 1) / 400 * 400) / 4 = yoe / 4 := by omega
     have e3 : (y - 1 - (y - 1) / 400 * 400) / 100 = yoe / 100 := by omega
     have e4 : (153 * (m + 9) + 2) / 5 = (153 * mp + 2) / 5 := by omega
     omega)
  | (have e1 : (y - 0) / 400 = era := by omega
     have e2 : (y - 0 - (y - 0) / 400 * 400) / 4 = yoe / 4 := by omega
     have e3 : (y - 0 - (y - 0) / 400 * 400) / 100 = yoe / 100 := by omega
     have e4 : (153 * (m + -3) + 2) / 5 = (153 * mp + 2) / 5 := by omega
     omega)

/-- The month produced by `civilFromDays` lies in `[1, 12]`. -/
theorem civilFromDays_month_range (z y m d : ℤ) (h : civilFromDays z = (y, m, d)) :
    1 ≤ m ∧ m ≤ 12 := by
  simp only [civilFromDays, Prod.mk.injEq] at h
  obtain ⟨hy, hm, hd⟩ := h
  set q : ℤ := z + 719468 with hq
  set era : ℤ := q / 146097 with hera
  set doe : ℤ := q - era * 146097 with hdoe
  set yoe : ℤ := (doe - doe / 1460 + doe / 36524 - doe / 146096) / 365 with hyoe
  set doy : ℤ := doe - (365 * yoe + yoe / 4 - yoe / 100) with hdoy
  set mp : ℤ := (5 * doy + 2) / 153 with hmp
  split_ifs at hy hm hd <;> omega

set_option maxHeartbeats 16000000 in
/-- For years 1801 to 2099 the truncated-division Julian-date formula agrees
with the Gregorian day count shifted to its epoch. -/
theorem julianDateNum_eq_daysFromCivil (y m d : ℤ) (hy1 : 1801 ≤ y) (hy2 : y ≤ 2099)
    (hm1 : 1 ≤ m) (hm2 : m ≤ 12) :
    julianDateNum y m d = daysFromCivil y m d + 719574 := by
  rw [julianDateNum,
    show (m + 9).tdiv 12 = (m + 9) / 12 from Int.tdiv_eq_ediv (by omega) (by norm_num)]
  rw [show (7 * (y + (m + 9) / 12)).tdiv 4 = 7 * (y + (m + 9) / 12) / 4 from
    Int.tdiv_eq_ediv (by omega) (by norm_num)]
  rw [show (275 * m).tdiv 9 = 275 * m / 9 from Int.tdiv_eq_ediv (by omega) (by norm_num)]
  simp only [daysFromCivil]
  have hr4 : y % 4 = 0 ∨ y % 4 = 1 ∨ y % 4 = 2 ∨ y % 4 = 3 := by omega
  split_ifs <;> rcases hr4 with hr | hr | hr | hr <;> interval_cases m <;> omega

/-- Composition: the Julian-date formula evaluated on the civil date of day
`z` gives `z + 719574`, for dates with years 1801 to 2099. -/
theorem julianDateNum_civilFromDays (z y m d : ℤ) (h : civilFromDays z = (y, m, d))
    (hy1 : 1801 ≤ y) (hy2 : y ≤ 2099) :
    julianDateNum y m d = z + 719574 := by
  obtain ⟨hm1, hm2⟩ := civilFromDays_month_range z y m d h
  have h2 := julianDateNum_eq_daysFromCivil y m d hy1 hy2 hm1 hm2
  have h3 := daysFromCivil_civilFromDays z y m d h
  omega

/-- `julian` splits into its integer midnight part and the fractional day. -/
theorem julian_eq_julianDateNum (g : CivilTime) :
    julian g = ((julianDateNum g.year g.month g.day : ℤ) : ℚ) + 3442027 / 2 +
      fractionalDay g := by
  have hiff : (100 * (g.year : ℚ) + (g.month : ℚ) - 380005 / 2 < 0) ↔
      (100 * g.year + g.month ≤ 190002) := by
    constructor
    · intro h
      by_contra hc
      push_neg at hc
      have h2 : (190003 : ℚ) ≤ 100 * (g.year : ℚ) + (g.month : ℚ) := by
        exact_mod_cast hc
      linarith
    · intro h
      have h2 : 100 * (g.year : ℚ) + (g.month : ℚ) ≤ 190002 := by
        exact_mod_cast h
      linarith
  rw [julian, julianDateNum, c19Correction]
  simp only [hiff]
  split_ifs with h <;> push_cast <;> ring

/-- Truncation toward zero moves a rational by at most one. -/
theorem abs_ratTrunc_sub_le (q : ℚ) : |(ratTrunc q : ℚ) - q| ≤ 1 := by
  rw [ratTrunc]
  split_ifs with h
  · have h1 := Int.floor_le (-q)
    have h2 := Int.lt_floor_add_one (-q)
    rw [abs_le]
    push_cast
    constructor <;> linarith
  · have h1 := Int.floor_le q
    have h2 := Int.lt_floor_add_one q
    rw [abs_le]
    constructor <;> linarith

/-- The julian date of the Unix epoch is 2440587.5, written `4881175 / 2`. -/
theorem julian_unixEpochTime : julian unixEpochTime = 4881175 / 2 := by
  norm_num [julian, fractionalDay, c19Correction, unixEpochTime, Int.tdiv]

/-- `julian` of the civil time of `s` epoch seconds is `2440587.5 + s/86400`,
for dates with years 1801 to 2099. -/
theorem julian_civilFromSeconds (s : ℤ)
    (hy1 : 1801 ≤ (civilFromSeconds s).year) (hy2 : (civilFromSeconds s).year ≤ 2099) :
    julian (civilFromSeconds s) = 4881175 / 2 + (s : ℚ) / 86400 := by
  have hdays := Int.ediv_add_emod s 86400
  have hr1 : 0 ≤ s % 86400 := Int.emod_nonneg s (by norm_num)
  have hr2 : s % 86400 < 86400 := Int.emod_lt_of_pos s (by norm_num)
  have hyear : (civilFromSeconds s).year = (civilFromDays (s / 86400)).1 := rfl
  have hhour : (civilFromSeconds s).hour = s % 86400 / 3600 := rfl
  have hminute : (civilFromSeconds s).minute = s % 86400 % 3600 / 60 := rfl
  have hsecond : (civilFromSeconds s).second = s % 86400 % 60 := rfl
  have htriple : civilFromDays (s / 86400) =
      ((civilFromSeconds s).year, (civilFromSeconds s).month, (civilFromSeconds s).day) := rfl
  have hkey := julianDateNum_civilFromDays (s / 86400) (civilFromSeconds s).year
    (civilFromSeconds s).month (civilFromSeconds s).day htriple hy1 hy2
  rw [julian_eq_julianDateNum, hkey, fractionalDay, hhour, hminute, hsecond]
  have hfrac : s % 86400 / 3600 * 3600 + s % 86400 % 3600 / 60 * 60 + s % 86400 % 60 =
      s % 86400 := by omega
  rw [hfrac]
  have hsplit : ((s : ℚ)) = 86400 * ((s / 86400 : ℤ) : ℚ) + ((s % 86400 : ℤ) : ℚ) := by
    rw [show ((s : ℚ)) = ((86400 * (s / 86400) + s % 86400 : ℤ) : ℚ) by rw [hdays]]
    push_cast
    ring
  rw [hsplit]
  push_cast
  ring

/-- C3: for every nonzero julianTime `x` whose gregorian conversion lands in
years 1801 to 2099, converting back with `julian` recovers `x` to within
`1/86400` of a day (one second). -/
theorem julian_gregorian_roundtrip (x : ℚ) (c : CivilTime) (hx : x ≠ 0)
    (hg : gregorian (.val x) = .ok c)
    (hy1 : 1801 ≤ c.year) (hy2 : c.year ≤ 2099) :
    |julian c - x| ≤ 1 / 86400 := by
  simp only [gregorian, if_pos hx] at hg
  have hc : civilFromSeconds (ratTrunc ((x - julian unixEpochTime) * 86400)) = c := by
    injection hg
  set s : ℤ := ratTrunc ((x - julian unixEpochTime) * 86400) with hs
  rw [← hc] at hy1 hy2 ⊢
  rw [julian_civilFromSeconds s hy1 hy2]
  have habs := abs_ratTrunc_sub_le ((x - julian unixEpochTime) * 86400)
  rw [← hs, julian_unixEpochTime] at habs
  rw [abs_le] at habs ⊢
  obtain ⟨ha, hb⟩ := habs
  constructor <;> linarith



/-- Concrete evaluation: julianTime `2453954` converts to 2006-08-06 12:00:00 UTC. -/
theorem gregorian_val_2453954 :
    gregorian (.val 2453954) = .ok ⟨2006, 8, 6, 12, 0, 0⟩ := by
  simp only [gregorian, julian_unixEpochTime]
  rw [if_pos (by norm_num : (2453954 : ℚ) ≠ 0)]
  rw [show ((2453954 : ℚ) - 4881175 / 2) * 86400 = ((1154865600 : ℤ) : ℚ) by norm_num]
  rw [show ratTrunc ((1154865600 : ℤ) : ℚ) = 1154865600 by rw [ratTrunc]; norm_num]
  decide

/-- C3 (witness): the round trip at the concrete julianTime `2453954`. -/
theorem julian_gregorian_roundtrip_witness :
    |julian ⟨2006, 8, 6, 12, 0, 0⟩ - 2453954| ≤ 1 / 86400 :=
  julian_gregorian_roundtrip 2453954 ⟨2006, 8, 6, 12, 0, 0⟩ (by norm_num)
    gregorian_val_2453954 (by norm_num) (by norm_num)

/-- C5 (counterexample): a NaN julianTime does not map to the empty
`gregorianTime`; the `j != 0` guard is true for NaN, so the conversion branch
runs on garbage. -/
theorem gregorian_nan_not_empty : gregorian .nan ≠ .ok civilEmpty := by decide

/-- C5 (amended): `gregorian` maps the exact value `0` to the distinguished
empty `gregorianTime`, but NaN is not special-cased and yields a non-empty
implementation-defined value. -/
theorem gregorian_zero_and_nan :
    gregorian (.val 0) = .ok civilEmpty ∧ gregorian .nan ≠ .ok civilEmpty := by
  constructor
  · simp [gregorian]
  · decide

end Astro
